import Mathlib

/-!
Verification of the `SparkSubmitOperator`
(`airflow/providers/apache/spark/operators/spark_submit.py`).

The operator is a configuration bag set up in `__init__`, with three
operations: `execute` (lazily construct the `SparkSubmitHook` and call its
`submit` with the stored application), `on_kill` (lazily construct the hook
and call its `on_kill`), and `_get_hook` (build the hook from the stored
fields).

Python object construction and method calls are embedded as pure state
passing: an operator value plus a fresh-identity counter; the observable
interaction with the hook is recorded as a trace of events.  The
`SparkSubmitHook` class itself is not part of the sources under review; the
small part of its behaviour that the claims need (command building on
`submit`, cancellation on `on_kill`) is modelled from the specification and
marked as such.
-/

/-- Parameter set with which a `SparkSubmitHook` is constructed.  The fields
are exactly the keyword arguments of the `SparkSubmitHook(...)` call in
`_get_hook` (source lines 190-216).  Python `Dict[str, Any]` values are
embedded as association lists of strings, `List[Any]` as lists of strings. -/
structure HookParams where
  conf : Option (List (String × String))
  conn_id : String
  files : Option String
  py_files : Option String
  archives : Option String
  driver_class_path : Option String
  jars : Option String
  java_class : Option String
  packages : Option String
  exclude_packages : Option String
  repositories : Option String
  total_executor_cores : Option Int
  executor_cores : Option Int
  executor_memory : Option String
  driver_memory : Option String
  keytab : Option String
  principal : Option String
  proxy_user : Option String
  name : String
  num_executors : Option Int
  status_poll_interval : Int
  application_args : Option (List String)
  env_vars : Option (List (String × String))
  verbose : Bool
  spark_binary : Option String
deriving DecidableEq

/-- Terminal/running status of a submission, as enumerated in the spec
(`{PENDING, RUNNING, SUCCEEDED, FAILED, KILLED, UNKNOWN}`). -/
inductive SubmissionStatus where
  | pending
  | running
  | succeeded
  | failed
  | killed
  | unknown
deriving DecidableEq

/-- SUCCEEDED, FAILED, KILLED and UNKNOWN are the terminal states. -/
def SubmissionStatus.isTerminal : SubmissionStatus → Bool
  | .succeeded => true
  | .failed => true
  | .killed => true
  | .unknown => true
  | .pending => false
  | .running => false

/-- Modelled from the spec: the submission currently tracked by a hook
(the spec's `SubmissionHandle`): an identifier plus a status. -/
structure TrackedSubmission where
  subId : Nat
  status : SubmissionStatus
deriving DecidableEq

/-- The `SparkSubmitHook` as seen by the operator: the parameter set it was
constructed with, a `hookId` modelling Python object identity (fresh per
construction), and — modelled from the spec, since the hook class is not
among the sources under review — the submission it currently tracks
(`none` at construction: no submission is in flight until `submit` runs). -/
structure SparkSubmitHook where
  params : HookParams
  hookId : Nat
  tracked : Option TrackedSubmission
deriving DecidableEq

/-- Observable events of one operator/hook interaction. -/
inductive Event where
  /-- A fresh `SparkSubmitHook` with the given identity was constructed. -/
  | hookConstructed (hookId : Nat)
  /-- `submit` was called on the hook with the given identity, passing the
  given application reference. -/
  | submitCalled (hookId : Nat) (application : String)
  /-- A termination/cancellation signal was requested for the given
  tracked submission. -/
  | cancelRequested (subId : Nat)
  /-- An external process was started with the given argv. -/
  | processStarted (argv : List String)
deriving DecidableEq

/-- State of a `SparkSubmitOperator` instance: the configuration fields
stored by `__init__` (source lines 150-176) plus the mutable `_hook`
reference (`None` until first use). -/
structure SparkSubmitOperator where
  _application : String
  _conf : Option (List (String × String))
  _conn_id : String
  _files : Option String
  _py_files : Option String
  _archives : Option String
  _driver_class_path : Option String
  _jars : Option String
  _java_class : Option String
  _packages : Option String
  _exclude_packages : Option String
  _repositories : Option String
  _total_executor_cores : Option Int
  _executor_cores : Option Int
  _executor_memory : Option String
  _driver_memory : Option String
  _keytab : Option String
  _principal : Option String
  _proxy_user : Option String
  _name : String
  _num_executors : Option Int
  _status_poll_interval : Int
  _application_args : Option (List String)
  _env_vars : Option (List (String × String))
  _verbose : Bool
  _spark_binary : Option String
  _hook : Option SparkSubmitHook
deriving DecidableEq

/-- The keyword-argument set of the `SparkSubmitHook(...)` construction in
`_get_hook` (source lines 190-216): every stored field except
`_application` and `_hook`, each forwarded unchanged. -/
def SparkSubmitOperator.hookParams (op : SparkSubmitOperator) : HookParams :=
  { conf := op._conf
    conn_id := op._conn_id
    files := op._files
    py_files := op._py_files
    archives := op._archives
    driver_class_path := op._driver_class_path
    jars := op._jars
    java_class := op._java_class
    packages := op._packages
    exclude_packages := op._exclude_packages
    repositories := op._repositories
    total_executor_cores := op._total_executor_cores
    executor_cores := op._executor_cores
    executor_memory := op._executor_memory
    driver_memory := op._driver_memory
    keytab := op._keytab
    principal := op._principal
    proxy_user := op._proxy_user
    name := op._name
    num_executors := op._num_executors
    status_poll_interval := op._status_poll_interval
    application_args := op._application_args
    env_vars := op._env_vars
    verbose := op._verbose
    spark_binary := op._spark_binary }

/-- `_get_hook` (source lines 189-216): constructs a `SparkSubmitHook` from
the stored configuration.  `hookId` models the identity of the freshly
constructed Python object; a fresh hook tracks no submission. -/
def SparkSubmitOperator._get_hook (op : SparkSubmitOperator) (hookId : Nat) :
    SparkSubmitHook :=
  { params := op.hookParams, hookId := hookId, tracked := none }

/-- Modelled from the spec: the hook's `on_kill` ("requests cancellation of
the currently tracked submission, ... safe to call even if no submission is
in flight (no-op)"; "Cancellation requested after terminal state is a
harmless no-op, never an error").  The `SparkSubmitHook` implementation is
not among the sources under review.  Returns the emitted events; it never
raises. -/
def SparkSubmitHook.on_kill (h : SparkSubmitHook) : List Event :=
  match h.tracked with
  | none => []
  | some s => if s.status.isTerminal then [] else [Event.cancelRequested s.subId]

/-- `execute` (source lines 178-182): lazily construct the hook if `_hook`
is `None`, store it, and call `submit(self._application)` on it.  The
`context` argument is embedded as a value of an arbitrary type, since the
source never uses it.  `nextId` supplies the identity for a freshly
constructed hook.  Returns the new operator state, the next fresh identity,
and the trace of events. -/
def SparkSubmitOperator.execute {Ctx : Type} (op : SparkSubmitOperator)
    (ctx : Ctx) (nextId : Nat) : SparkSubmitOperator × Nat × List Event :=
  match op._hook with
  | none =>
      let h := op._get_hook nextId
      ({ op with _hook := some h }, nextId + 1,
        [Event.hookConstructed h.hookId, Event.submitCalled h.hookId op._application])
  | some h => (op, nextId, [Event.submitCalled h.hookId op._application])

/-- `on_kill` (source lines 184-187): lazily construct the hook if `_hook`
is `None`, store it, and call `on_kill()` on it. -/
def SparkSubmitOperator.on_kill (op : SparkSubmitOperator) (nextId : Nat) :
    SparkSubmitOperator × Nat × List Event :=
  match op._hook with
  | none =>
      let h := op._get_hook nextId
      ({ op with _hook := some h }, nextId + 1,
        Event.hookConstructed h.hookId :: h.on_kill)
  | some h => (op, nextId, h.on_kill)

/-- The operator built by `__init__` with every optional parameter omitted:
each field takes its default from the signature (source lines 121-146), and
`_hook` starts as `None` (line 175). -/
def defaultOperator : SparkSubmitOperator :=
  { _application := ""
    _conf := none
    _conn_id := "spark_default"
    _files := none
    _py_files := none
    _archives := none
    _driver_class_path := none
    _jars := none
    _java_class := none
    _packages := none
    _exclude_packages := none
    _repositories := none
    _total_executor_cores := none
    _executor_cores := none
    _executor_memory := none
    _driver_memory := none
    _keytab := none
    _principal := none
    _proxy_user := none
    _name := "arrow-spark"
    _num_executors := none
    _status_poll_interval := 1
    _application_args := none
    _env_vars := none
    _verbose := false
    _spark_binary := none
    _hook := none }

/-- Is this event a `submit` call on the hook? -/
def Event.isSubmitCall : Event → Bool
  | .submitCalled _ _ => true
  | _ => false

/-- Is this event a cancellation request? -/
def Event.isCancelRequest : Event → Bool
  | .cancelRequested _ => true
  | _ => false

/-- The `submit` calls contained in a trace. -/
def submitCalls (es : List Event) : List Event :=
  es.filter Event.isSubmitCall

/-- The cancellation requests contained in a trace. -/
def cancelRequests (es : List Event) : List Event :=
  es.filter Event.isCancelRequest

/-- Equality of all 26 configuration fields of two operator states (every
stored field except the mutable `_hook` reference). -/
def configEq (a b : SparkSubmitOperator) : Prop :=
  a._application = b._application ∧
  a._conf = b._conf ∧
  a._conn_id = b._conn_id ∧
  a._files = b._files ∧
  a._py_files = b._py_files ∧
  a._archives = b._archives ∧
  a._driver_class_path = b._driver_class_path ∧
  a._jars = b._jars ∧
  a._java_class = b._java_class ∧
  a._packages = b._packages ∧
  a._exclude_packages = b._exclude_packages ∧
  a._repositories = b._repositories ∧
  a._total_executor_cores = b._total_executor_cores ∧
  a._executor_cores = b._executor_cores ∧
  a._executor_memory = b._executor_memory ∧
  a._driver_memory = b._driver_memory ∧
  a._keytab = b._keytab ∧
  a._principal = b._principal ∧
  a._proxy_user = b._proxy_user ∧
  a._name = b._name ∧
  a._num_executors = b._num_executors ∧
  a._status_poll_interval = b._status_poll_interval ∧
  a._application_args = b._application_args ∧
  a._env_vars = b._env_vars ∧
  a._verbose = b._verbose ∧
  a._spark_binary = b._spark_binary

instance (a b : SparkSubmitOperator) : Decidable (configEq a b) := by
  unfold configEq; infer_instance

/-- Error taxonomy of the spec that the claims need: `ConfigError`
("invalid/missing required configuration, detected before any process is
started"). -/
inductive BuildError where
  | configError
deriving DecidableEq

/-- Modelled from the spec: whether an alternate way of identifying the
application was configured.  The only such field in the configuration
surface is `java_class`, the main class of the Java application. -/
def hasAlternateAppIdentifier (p : HookParams) : Bool :=
  p.java_class.isSome

/-- Render an optional string field as a flag ("empty/unset fields omit the
corresponding flag entirely"). -/
def optFlag (flag : String) : Option String → List String
  | none => []
  | some v => [flag, v]

/-- Render an optional numeric field as its string form, omitting the flag
when absent. -/
def optIntFlag (flag : String) : Option Int → List String
  | none => []
  | some v => [flag, toString v]

/-- Render the arbitrary configuration overlay as one repeated flag per
key, in declared order, no re-ordering or deduplication. -/
def confFlags : Option (List (String × String)) → List String
  | none => []
  | some kvs => (kvs.map (fun kv => ["--conf", kv.1 ++ "=" ++ kv.2])).flatten

/-- Modelled from the spec: the `CommandBuilder.build` step of the
`SparkSubmitHook` (not among the sources under review), following §4.1:
binary name defaults to the submission tool name when unset; list and
numeric fields are rendered verbatim as single flag arguments with unset
fields omitted; the application reference and its arguments are the final
positional arguments; and it "fails with `ConfigError` if application
path/URI is empty and no alternate way of identifying the application was
configured", producing no argv. -/
def buildSparkSubmitCommand (p : HookParams) (application : String) :
    Except BuildError (List String) :=
  if application = "" && !hasAlternateAppIdentifier p then
    .error .configError
  else
    .ok ([(p.spark_binary.getD "spark-submit")]
      ++ confFlags p.conf
      ++ optFlag "--files" p.files
      ++ optFlag "--py-files" p.py_files
      ++ optFlag "--archives" p.archives
      ++ optFlag "--driver-class-path" p.driver_class_path
      ++ optFlag "--jars" p.jars
      ++ optFlag "--packages" p.packages
      ++ optFlag "--exclude-packages" p.exclude_packages
      ++ optFlag "--repositories" p.repositories
      ++ optIntFlag "--total-executor-cores" p.total_executor_cores
      ++ optIntFlag "--executor-cores" p.executor_cores
      ++ optFlag "--executor-memory" p.executor_memory
      ++ optFlag "--driver-memory" p.driver_memory
      ++ optFlag "--keytab" p.keytab
      ++ optFlag "--principal" p.principal
      ++ optFlag "--proxy-user" p.proxy_user
      ++ ["--name", p.name]
      ++ optIntFlag "--num-executors" p.num_executors
      ++ optFlag "--class" p.java_class
      ++ (if p.verbose then ["--verbose"] else [])
      ++ (if application = "" then [] else [application])
      ++ p.application_args.getD [])

/-- Modelled from the spec: the hook's `submit` performs build then launch;
a build failure aborts "before any process is started" with no partial
result, while a successful build starts the external process with the built
argv. -/
def hookSubmit (p : HookParams) (application : String) :
    Except BuildError (List Event) :=
  match buildSparkSubmitCommand p application with
  | .error e => .error e
  | .ok argv => .ok [Event.processStarted argv]

/-- Helper: every `execute` trace contains exactly one `submit` call, and it
carries the stored `_application`. -/
lemma execute_submitCalls {Ctx : Type} (op : SparkSubmitOperator) (ctx : Ctx)
    (n : Nat) :
    ∃ hid, submitCalls (op.execute ctx n).2.2 =
      [Event.submitCalled hid op._application] := by
  cases hop : op._hook with
  | none =>
      refine ⟨n, ?_⟩
      simp [SparkSubmitOperator.execute, hop, SparkSubmitOperator._get_hook,
        submitCalls, List.filter, Event.isSubmitCall]
  | some h =>
      refine ⟨h.hookId, ?_⟩
      simp [SparkSubmitOperator.execute, hop, submitCalls, List.filter,
        Event.isSubmitCall]

/-- C1: `execute` performs the submission by invoking the hook's `submit`
exactly once, passing exactly the stored `_application`, and passes it
nowhere else: the hook's construction parameters do not depend on
`_application`. -/
theorem execute_submits_application_exactly_once {Ctx : Type}
    (op : SparkSubmitOperator) (ctx : Ctx) (n : Nat) :
    (∃ hid, submitCalls (op.execute ctx n).2.2 =
      [Event.submitCalled hid op._application]) ∧
    ∀ s : String,
      SparkSubmitOperator.hookParams { op with _application := s } =
        op.hookParams :=
  ⟨execute_submitCalls op ctx n, fun _ => rfl⟩

/-- C2: for a configuration whose application reference is the empty string
and which configures no alternate way of identifying the application, the
submission attempt fails with `ConfigError`: the build produces no argv and
no process is started. -/
theorem empty_application_submit_config_error (op : SparkSubmitOperator)
    (happ : op._application = "")
    (halt : hasAlternateAppIdentifier op.hookParams = false) :
    hookSubmit op.hookParams op._application = .error .configError ∧
    buildSparkSubmitCommand op.hookParams op._application =
      .error .configError := by
  constructor <;> simp [hookSubmit, buildSparkSubmitCommand, happ, halt]

/-- C2 witness: the all-defaults configuration has an empty application and
no alternate identifier, and its submission fails with `ConfigError`. -/
theorem empty_application_submit_config_error_witness :
    hookSubmit defaultOperator.hookParams defaultOperator._application =
      .error .configError ∧
    buildSparkSubmitCommand defaultOperator.hookParams
      defaultOperator._application = .error .configError :=
  empty_application_submit_config_error defaultOperator rfl rfl

/-- C3: neither `execute` nor `on_kill` modifies any stored configuration
field; only the `_hook` reference may change. -/
theorem execute_on_kill_preserve_config {Ctx : Type}
    (op : SparkSubmitOperator) (ctx : Ctx) (n m : Nat) :
    configEq op (op.execute ctx n).1 ∧ configEq op (op.on_kill m).1 := by
  constructor <;> cases hop : op._hook <;>
    simp [SparkSubmitOperator.execute, SparkSubmitOperator.on_kill, hop,
      configEq]

/-- C4: the comma-separated list fields (files, jars, packages,
exclude_packages, repositories) reach the hook as exactly the strings stored
at construction, with an unset (`none`) field forwarded as unset. -/
theorem list_fields_forwarded_verbatim (op : SparkSubmitOperator) :
    op.hookParams.files = op._files ∧
    op.hookParams.jars = op._jars ∧
    op.hookParams.packages = op._packages ∧
    op.hookParams.exclude_packages = op._exclude_packages ∧
    op.hookParams.repositories = op._repositories :=
  ⟨rfl, rfl, rfl, rfl, rfl⟩

/-- C5: hook construction is deterministic and idempotent in the
configuration: two `_get_hook` calls on operator states with the same stored
configuration fields yield hooks with identical parameter sets. -/
theorem get_hook_deterministic (a b : SparkSubmitOperator)
    (h : configEq a b) (i j : Nat) :
    (a._get_hook i).params = (b._get_hook j).params := by
  obtain ⟨h1, h2, h3, h4, h5, h6, h7, h8, h9, h10, h11, h12, h13, h14, h15,
    h16, h17, h18, h19, h20, h21, h22, h23, h24, h25, h26⟩ := h
  simp [SparkSubmitOperator._get_hook, SparkSubmitOperator.hookParams,
    h2, h3, h4, h5, h6, h7, h8, h9, h10, h11, h12, h13, h14, h15, h16, h17,
    h18, h19, h20, h21, h22, h23, h24, h25, h26]

/-- C5 witness: the default operator before and after its first `execute`
(which changes only `_hook`) yields identical hook parameter sets from two
`_get_hook` calls. -/
theorem get_hook_deterministic_witness :
    (defaultOperator._get_hook 0).params =
      (((defaultOperator.execute () 0).1)._get_hook 1).params :=
  get_hook_deterministic defaultOperator ((defaultOperator.execute () 0).1)
    (by decide) 0 1

/-- C6: every configuration-surface field is conveyed to the hook exactly
once and unchanged: each of the 25 hook constructor keyword arguments equals
the stored field (unset conveyed as unset), and the application path is
passed exactly once, as the argument of `submit`. -/
theorem config_surface_conveyed_once {Ctx : Type} (op : SparkSubmitOperator)
    (ctx : Ctx) (n : Nat) :
    op.hookParams.conf = op._conf ∧
    op.hookParams.conn_id = op._conn_id ∧
    op.hookParams.files = op._files ∧
    op.hookParams.py_files = op._py_files ∧
    op.hookParams.archives = op._archives ∧
    op.hookParams.driver_class_path = op._driver_class_path ∧
    op.hookParams.jars = op._jars ∧
    op.hookParams.java_class = op._java_class ∧
    op.hookParams.packages = op._packages ∧
    op.hookParams.exclude_packages = op._exclude_packages ∧
    op.hookParams.repositories = op._repositories ∧
    op.hookParams.total_executor_cores = op._total_executor_cores ∧
    op.hookParams.executor_cores = op._executor_cores ∧
    op.hookParams.executor_memory = op._executor_memory ∧
    op.hookParams.driver_memory = op._driver_memory ∧
    op.hookParams.keytab = op._keytab ∧
    op.hookParams.principal = op._principal ∧
    op.hookParams.proxy_user = op._proxy_user ∧
    op.hookParams.name = op._name ∧
    op.hookParams.num_executors = op._num_executors ∧
    op.hookParams.status_poll_interval = op._status_poll_interval ∧
    op.hookParams.application_args = op._application_args ∧
    op.hookParams.env_vars = op._env_vars ∧
    op.hookParams.verbose = op._verbose ∧
    op.hookParams.spark_binary = op._spark_binary ∧
    (∃ hid, submitCalls (op.execute ctx n).2.2 =
      [Event.submitCalled hid op._application]) :=
  ⟨rfl, rfl, rfl, rfl, rfl, rfl, rfl, rfl, rfl, rfl, rfl, rfl, rfl, rfl, rfl,
    rfl, rfl, rfl, rfl, rfl, rfl, rfl, rfl, rfl, rfl,
    execute_submitCalls op ctx n⟩

/-- C7 counterexample: on one operator instance the hook IS reused across
attempts.  The first `execute` constructs the hook of identity 0 and stores
it; the second `execute` constructs no new hook (its trace holds no
`hookConstructed` event) and runs `submit` on the same stored hook of
identity 0 — so two attempts share the same hook object, refuting the claim
that each attempt is served by a fresh hook instance. -/
theorem hook_reused_across_attempts :
    (defaultOperator.execute () 0).2.2 =
      [Event.hookConstructed 0, Event.submitCalled 0 ""] ∧
    (defaultOperator.execute () 0).1._hook =
      some (defaultOperator._get_hook 0) ∧
    ((defaultOperator.execute () 0).1.execute () 1).2.2 =
      [Event.submitCalled 0 ""] ∧
    ((defaultOperator.execute () 0).1.execute () 1).1._hook =
      some (defaultOperator._get_hook 0) := by
  decide

/-- C7 amended: the hook is constructed lazily at most once per operator
instance: when `_hook` is `None`, `execute` constructs one fresh hook and
stores it; when a hook is already stored, `execute` constructs no new hook
and reuses that stored hook for `submit`, so every later attempt on the same
instance shares the first attempt's hook. -/
theorem execute_hook_lazily_cached {Ctx : Type} (op : SparkSubmitOperator)
    (ctx : Ctx) (n : Nat) :
    (op._hook = none →
      op.execute ctx n =
        ({ op with _hook := some (op._get_hook n) }, n + 1,
          [Event.hookConstructed n, Event.submitCalled n op._application])) ∧
    (∀ h, op._hook = some h →
      op.execute ctx n =
        (op, n, [Event.submitCalled h.hookId op._application])) := by
  constructor
  · intro hnone
    simp [SparkSubmitOperator.execute, hnone, SparkSubmitOperator._get_hook]
  · intro h hsome
    simp [SparkSubmitOperator.execute, hsome]

/-- C7 witness: both branches of the lazily-cached behaviour at the default
operator: the first `execute` stores the fresh hook of identity 0; the
second reuses it. -/
theorem execute_hook_lazily_cached_witness :
    defaultOperator.execute () 0 =
      ({ defaultOperator with _hook := some (defaultOperator._get_hook 0) },
        1, [Event.hookConstructed 0, Event.submitCalled 0 ""]) ∧
    (defaultOperator.execute () 0).1.execute () 1 =
      ((defaultOperator.execute () 0).1, 1, [Event.submitCalled 0 ""]) :=
  ⟨(execute_hook_lazily_cached defaultOperator () 0).1 rfl,
   (execute_hook_lazily_cached (defaultOperator.execute () 0).1 () 1).2
     (defaultOperator._get_hook 0) rfl⟩

/-- C8: `on_kill` with no submission in flight is a safe no-op: before any
`execute` call (`_hook` still `None`) it requests no cancellation and raises
no error, and cancellation requested of a hook whose tracked submission has
reached a terminal state changes nothing (emits no event). -/
theorem on_kill_no_inflight_noop (op : SparkSubmitOperator) (n : Nat)
    (hnone : op._hook = none) :
    cancelRequests (op.on_kill n).2.2 = [] ∧
    (∀ hk : SparkSubmitHook, ∀ s, hk.tracked = some s →
      s.status.isTerminal = true → hk.on_kill = []) := by
  constructor
  · simp [SparkSubmitOperator.on_kill, hnone, SparkSubmitOperator._get_hook,
      SparkSubmitHook.on_kill, cancelRequests, List.filter,
      Event.isCancelRequest]
  · intro hk s hs ht
    simp [SparkSubmitHook.on_kill, hs, ht]

/-- C8 witness: `on_kill` on a freshly constructed default operator requests
no cancellation, and `on_kill` of a hook tracking an already-succeeded
submission emits nothing. -/
theorem on_kill_no_inflight_noop_witness :
    cancelRequests (defaultOperator.on_kill 0).2.2 = [] ∧
    SparkSubmitHook.on_kill
      { params := defaultOperator.hookParams, hookId := 0,
        tracked := some ⟨5, SubmissionStatus.succeeded⟩ } = [] :=
  ⟨(on_kill_no_inflight_noop defaultOperator 0 rfl).1,
   (on_kill_no_inflight_noop defaultOperator 0 rfl).2 _
     ⟨5, SubmissionStatus.succeeded⟩ rfl rfl⟩

/-- C9: with every optional parameter omitted, the hook receives the job
name "arrow-spark" (not "airflow-spark" as the docstring says), and the
defaults are: empty application, conn_id "spark_default",
status_poll_interval 1, verbose false, and `None` for every other optional
field. -/
theorem default_construction_values :
    defaultOperator.hookParams.name = "arrow-spark" ∧
    defaultOperator.hookParams.name ≠ "airflow-spark" ∧
    defaultOperator._application = "" ∧
    defaultOperator._conn_id = "spark_default" ∧
    defaultOperator._status_poll_interval = 1 ∧
    defaultOperator._verbose = false ∧
    defaultOperator._conf = none ∧
    defaultOperator._files = none ∧
    defaultOperator._py_files = none ∧
    defaultOperator._archives = none ∧
    defaultOperator._driver_class_path = none ∧
    defaultOperator._jars = none ∧
    defaultOperator._java_class = none ∧
    defaultOperator._packages = none ∧
    defaultOperator._exclude_packages = none ∧
    defaultOperator._repositories = none ∧
    defaultOperator._total_executor_cores = none ∧
    defaultOperator._executor_cores = none ∧
    defaultOperator._executor_memory = none ∧
    defaultOperator._driver_memory = none ∧
    defaultOperator._keytab = none ∧
    defaultOperator._principal = none ∧
    defaultOperator._proxy_user = none ∧
    defaultOperator._num_executors = none ∧
    defaultOperator._application_args = none ∧
    defaultOperator._env_vars = none ∧
    defaultOperator._spark_binary = none ∧
    defaultOperator._hook = none := by
  decide

/-- C10: `execute` is independent of its `context` argument: any two context
values, of any types, give the same hook construction, the same `submit`
call, and the same final operator state. -/
theorem execute_context_independent {A B : Type} (op : SparkSubmitOperator)
    (c1 : A) (c2 : B) (n : Nat) :
    op.execute c1 n = op.execute c2 n := rfl
